import Mathlib

/-!
Shallow embedding of the UNITY-Physics fw-GAMBAS gear sources
(`run.py`, `utils/parser.py`, `options/test_options.py`) and proofs of the
specified properties of the label resolver, the hierarchical importer, the
unit processor and the run supervisor.

External collaborators (the Flywheel platform client, the BIDS layout,
`app.main.Registration`, `models.create_model`, `app.main.inference`,
`utils.parser.parse_input_files`) are represented by explicit environment
records: the spec treats them as external interfaces, and only the
orchestration logic of the three embedded files is verified here.
-/

namespace Gambas

/-! ## Python string primitives used by the sources -/

/-- Python `s.lower()`, modelled characterwise (all markers compared by the
sources are ASCII). -/
def pyLower (s : String) : String := ⟨s.data.map Char.toLower⟩

/-- Python substring containment `needle in hay`: some tail of `hay` starts
with `needle`. -/
def pyContains (hay needle : String) : Bool :=
  hay.data.tails.any (fun t => needle.data.isPrefixOf t)

/-- One pass of Python `str.replace(pat, rep)` over a character list:
left-to-right, non-overlapping. The `fuel` argument (instantiated with the
length of the list, which bounds the number of steps) keeps the recursion
structural; the sources never call `replace` with an empty pattern. -/
def replList (pat rep : List Char) : Nat → List Char → List Char
  | _, [] => []
  | 0, l => l
  | fuel + 1, a :: rest =>
    if pat ≠ [] ∧ pat.isPrefixOf (a :: rest) then
      rep ++ replList pat rep fuel (List.drop pat.length (a :: rest))
    else
      a :: replList pat rep fuel rest

/-- Python `s.replace(pat, rep)`. -/
def pyReplace (s pat rep : String) : String :=
  ⟨replList pat.data rep.data s.data.length s.data⟩

/-- Helper for `pySplitWhitespace`: accumulates the current word (reversed)
while scanning. -/
def wordsAux : List Char → List Char → List (List Char)
  | [], cur => if cur = [] then [] else [cur.reverse]
  | a :: rest, cur =>
    if a.isWhitespace then
      if cur = [] then wordsAux rest [] else cur.reverse :: wordsAux rest []
    else
      wordsAux rest (a :: cur)

/-- Python `s.split()` with no argument: split on runs of whitespace,
discarding empty pieces. -/
def pySplitWhitespace (s : String) : List String :=
  (wordsAux s.data []).map (fun w => ⟨w⟩)

/-! ## utils/parser.py: label resolver -/

/-- Embeds `make_session_label` (utils/parser.py line 135):
`ses.label.split()[0].replace("-", '').replace("_", "")`. The `none` case
models the `IndexError` Python raises when the label has no
whitespace-delimited token at all. -/
def make_session_label (label : String) : Option String :=
  match pySplitWhitespace label with
  | [] => none
  | t :: _ => some (pyReplace (pyReplace t "-" "") "_" "")

/-- The `string.ascii_lowercase` constant `alc` imported by utils/parser.py. -/
def alc : List Char := "abcdefghijklmnopqrstuvwxyz".data

/-- Embeds the session-label deduplication loop of `download_subject`
(utils/parser.py lines 216 to 220):

    ses_label = ses_label0; i = 0
    while ses_label in sessions_out:
        ses_label = ses_label0 + alc[i]
        i += 1

`taken` is the current key set of `sessions_out`; the `none` result models
the `IndexError` raised by `alc[i]` once the 26 suffixes are exhausted.
The fuel (instantiated with 28, one more than the greatest possible number
of membership tests) keeps the recursion structural and is never exhausted
before the `alc` lookup fails. -/
def resolveLabelLoop (taken : List String) (base : String) :
    Nat → String → Nat → Option String
  | 0, _, _ => none
  | fuel + 1, cand, i =>
    if taken.contains cand then
      match alc.get? i with
      | none => none
      | some c => resolveLabelLoop taken base fuel (base.push c) (i + 1)
    else some cand

/-- Resolution of one session label against the already-assigned labels. -/
def resolveSessionLabel (taken : List String) (base : String) : Option String :=
  resolveLabelLoop taken base 28 base 0

/-- The fold of the deduplication loop over a whole subject, starting from
an already-taken key set: assigns each sanitized base label in encounter
order, threading the growing `sessions_out` key set. -/
def assignSessionLabels (taken : List String) : List String → Option (List String)
  | [] => some []
  | b :: rest =>
    match resolveSessionLabel taken b with
    | none => none
    | some l => (assignSessionLabels (taken ++ [l]) rest).map (fun ls => l :: ls)

/-- Embeds the session-label part of `download_subject` (utils/parser.py
lines 212 to 225): for each session in iteration order, sanitize its raw
label with `make_session_label` (inside `download_session`) and deduplicate
it against the labels already assigned under this subject. -/
def downloadSubjectLabels (taken : List String) : List String → Option (List String)
  | [] => some []
  | raw :: rest =>
    match make_session_label raw with
    | none => none
    | some base =>
      match resolveSessionLabel taken base with
      | none => none
      | some l => (downloadSubjectLabels (taken ++ [l]) rest).map (fun ls => l :: ls)

/-! ## utils/parser.py: download_file -/

/-- A file node of the external hierarchy, as read by `download_file`:
its `name` and its declared content type `file['type']`. -/
structure FwFile where
  name : String
  ftype : String
  deriving DecidableEq, Repr

/-- The inclusion filter of `download_file` (utils/parser.py lines 146 to
155), nested exactly as in the source:

    if file['type'] in ['source code', 'nifti']:
        if 'T2' in file.name and ('axi' in file_name_lower or 'AXI' in file.name):
            if not any(excluded in file_name_lower for excluded in ['mapping', 'align', 'brain']):
                do_download = True
-/
def should_download (file : FwFile) : Bool :=
  let file_name_lower := pyLower file.name
  if file.ftype == "source code" || file.ftype == "nifti" then
    if pyContains file.name "T2" &&
        (pyContains file_name_lower "axi" || pyContains file.name "AXI") then
      if !(pyContains file_name_lower "mapping" ||
            pyContains file_name_lower "align" ||
            pyContains file_name_lower "brain") then
        true
      else false
    else false
  else false

/-- Observable effect of one `download_file` call. `downloaded` means the
call invoked `file.download(fpath)`. -/
inductive FileAction where
  | downloaded
  | alreadyPresent
  | dryRunSkip
  | filteredOut
  deriving DecidableEq, Repr

/-- Embeds `download_file` (utils/parser.py lines 145 to 179).
`targetExists` is the oracle for `os.path.exists(fpath)`. The function
always returns `file.name`; a file failing the filter is skipped without
any error. -/
def download_file (file : FwFile) (dry_run targetExists : Bool) :
    FileAction × String :=
  if should_download file then
    if dry_run then (FileAction.dryRunSkip, file.name)
    else if targetExists then (FileAction.alreadyPresent, file.name)
    else (FileAction.downloaded, file.name)
  else (FileAction.filteredOut, file.name)

/-! ## options/test_options.py: get_gambas_basename -/

/-- The two exceptions `get_gambas_basename` can raise. -/
inductive GbError where
  | fileNotFound
  | unsupportedFileType
  deriving DecidableEq, Repr

/-- Python `s.endswith(suffix)`. -/
def pyEndsWith (s suffix : String) : Bool := suffix.data.isSuffixOf s.data

/-- The result list of `in_dir.glob("*.nii.gz")`: the entries of the
directory whose names end with `.nii.gz`, in listing order. -/
def globNiiGz (entries : List String) : List String :=
  entries.filter (fun n => pyEndsWith n ".nii.gz")

/-- Embeds `get_gambas_basename` (options/test_options.py lines 6 to 40),
applied to the (already globbed) NIfTI file names of the input directory. -/
def get_gambas_basename (nii_files : List String) (which_model : String) :
    Except GbError String :=
  match nii_files with
  | [] => Except.error GbError.fileNotFound
  | original_file :: _ =>
    let base := original_file
    let suffix := if which_model = "GAMBAS" then "_gambas.nii.gz" else "_ResCNN.nii.gz"
    if pyEndsWith base ".nii.gz" then
      Except.ok (pyReplace base ".nii.gz" suffix)
    else Except.error GbError.unsupportedFileType

/-- Embeds the model selection of `parse_config` (utils/parser.py lines 39
to 45): GPU present selects GAMBAS, otherwise ResCNN. -/
def select_model (is_gpu : Bool) : String :=
  if is_gpu then "GAMBAS" else "ResCNN"

/-! ## run.py: unit processor (fw_process_subject) -/

/-- The Python exceptions relevant to the orchestration logic. -/
inductive PyExn where
  | typeError (msg : String)
  | unboundLocalError (name : String)
  | other (msg : String)
  deriving DecidableEq, Repr

/-- The attributes of a parsed `TestOptions` object that the per-candidate
loop of run.py reads. -/
structure TestOptionsResult where
  image : String
  reference : String
  result_sr : String
  deriving Repr

/-- Outcome of the call `TestOptions(which_model=..., config=..., sub=...,
ses=..., image=f).parse()` at run.py line 164. `TestOptions.__init__`
(options/test_options.py line 44) has parameters
`(self, which_model, config, sub, ses)` only, so Python raises a
`TypeError` for the keyword argument `image` before any constructor body
runs, whatever `BaseOptions` does. -/
def actualOptionsStep (_which_model _f : String) : Except PyExn TestOptionsResult :=
  Except.error (PyExn.typeError "init got an unexpected keyword argument image")

/-- Environment of one candidate iteration of the loop at run.py lines 157
to 195: the outcomes of the external calls, keyed by the candidate path
`f` (the options object handed to them is itself a function of `f`).
`optionsStep` is kept as a parameter so that the branch structure of the
loop body can be stated for a hypothetical successful options resolution
as well as for the actual `actualOptionsStep`; `registration` returning
`Except.ok none` models the null sentinel of `app.main.Registration`;
`inference` returning `Except.ok none` or an empty string models its falsy
failure sentinel. -/
structure CandidateEnv where
  optionsStep : String → Except PyExn TestOptionsResult
  registration : String → Except PyExn (Option String)
  modelSetup : String → Except PyExn Unit
  inference : String → Except PyExn (Option String)

/-- One iteration of the per-candidate loop (run.py lines 157 to 195,
followed by the stray duplicated block at lines 223 to 229): returns the
list of entries this candidate appends to `deriv_fnames`. An `Except.error`
from any step is caught by the per-file handler at line 192 (which logs and
continues), a null registration result hits the `continue` at line 172, and
both leave `deriv_fnames` untouched for this candidate — no exception
escapes the loop body. When the `try` body runs to completion with a truthy
`fname`, the append at line 186 inside the body and the leftover
`if fname:` block at line 223 (indented inside the `for` loop, after the
`try`/`except` statement, a remnant of the commented-out older loop) both
append `fname`, so the candidate contributes it twice. -/
def processCandidate (env : CandidateEnv) (f : String) : List String :=
  match env.optionsStep f with
  | Except.error _ => []
  | Except.ok _opt =>
    match env.registration f with
    | Except.error _ => []
    | Except.ok none => []
    | Except.ok (some _img) =>
      match env.modelSetup f with
      | Except.error _ => []
      | Except.ok _ =>
        match env.inference f with
        | Except.error _ => []
        | Except.ok none => []
        | Except.ok (some fname) =>
          if fname == "" then [] else [fname, fname]

/-- Environment of one `fw_process_subject` call: the candidate paths that
`parse_input_files` followed by `[*my_files['axi'], *my_files['sag'],
*my_files['cor']]` would produce (in that fixed orientation order), or the
exception it raises; the per-candidate environment; and
`gear_context.work_dir`. -/
structure SessionEnv where
  parse_input_files : Except PyExn (List String)
  cand : CandidateEnv
  work_dir : String

/-- The log file path written by the `finally` block of
`fw_process_subject` (run.py line 239):
`os.path.join(gear_context.work_dir, f"sub-(sub)_ses-(ses)_log.txt")`. -/
def log_filename (work_dir sub ses : String) : String :=
  work_dir ++ "/" ++ "sub-" ++ sub ++ "_ses-" ++ ses ++ "_log.txt"

/-- Result of one `fw_process_subject` call: the returned triple
`(raw_fnames, deriv_fnames, logs)` or the exception the call raises, plus
the side effects of the `finally` block (run.py lines 235 to 248), which
runs on every path: the log file written, and whether the temporary
handler was removed from the root logger. -/
structure UnitResult where
  outcome : Except PyExn (List String × List String × List String)
  logFileWritten : String
  handlerDetached : Bool
  deriving Repr

/-- Embeds `fw_process_subject` (run.py lines 112 to 250). When
`parse_input_files` raises, the outer handler at line 231 catches and only
logs (the `raise e` is commented out), the `finally` block still writes the
log file, appends its path to `logs` and detaches the handler, but the
local variables `raw_fnames` and `deriv_fnames` were never assigned, so the
`return raw_fnames, deriv_fnames, logs` at line 250 raises
`UnboundLocalError` — which propagates to the caller. When
`parse_input_files` returns, no later statement can raise outside the
per-candidate handler, and the triple is returned with
`deriv_fnames` the concatenation of the per-candidate contributions. -/
def fw_process_subject (env : SessionEnv) (sub ses : String) : UnitResult :=
  let logfile := log_filename env.work_dir sub ses
  match env.parse_input_files with
  | Except.error _ =>
    { outcome := Except.error (PyExn.unboundLocalError "raw_fnames")
      logFileWritten := logfile
      handlerDetached := true }
  | Except.ok all_t2 =>
    let raw_fnames := all_t2
    let deriv_fnames := (all_t2.map (processCandidate env.cand)).flatten
    { outcome := Except.ok (raw_fnames, deriv_fnames, [logfile])
      logFileWritten := logfile
      handlerDetached := true }

/-! ## run.py: run supervisor (main, lines 63 to 105) -/

/-- The analysis record `main` creates for a session (run.py lines 94 to
101) together with the files uploaded to it (lines 103 to 105). -/
structure SessionAnalysis where
  status : String
  note : String
  files : List String
  deriving DecidableEq, Repr

/-- Observable effect of one iteration of the session loop of `main`. -/
structure SupervisorStep where
  deletedRaw : List String
  analysis : Option SessionAnalysis
  skippedNoInput : Bool
  deriving DecidableEq, Repr

/-- Embeds the body of the session loop of `main` (run.py lines 65 to 105)
as a function of the triple returned by `fw_process_subject`. With no raw
files the session is skipped (line 70). With raw files but no derivative,
every located raw file is deleted (lines 74 to 79) and the loop continues
at line 80 — so the analysis-creation block below it, including its
`"failed" if not deriv_fnames` status and its failure note, never runs for
such a session. Otherwise an analysis is created with every raw,
derivative and log file uploaded; the conditional status expression of
lines 99 and 100 is kept as in the source even though its failure branch
is unreachable here. -/
def main_session_step (raw_fnames deriv_fnames logs : List String) :
    SupervisorStep :=
  if raw_fnames.isEmpty then
    { deletedRaw := [], analysis := none, skippedNoInput := true }
  else if deriv_fnames.isEmpty then
    { deletedRaw := raw_fnames, analysis := none, skippedNoInput := false }
  else
    { deletedRaw := []
      analysis := some
        { status := if deriv_fnames.isEmpty then "failed" else "success"
          note := if deriv_fnames.isEmpty then
              "No derived outputs, processing may have failed." else ""
          files := raw_fnames ++ deriv_fnames ++ logs }
      skippedNoInput := false }

/-! ## Concrete environments used by the theorems below -/

/-- The single candidate path of the concrete scenario: an input directory
containing only `sub-01_ses-1_T2w_axi.nii.gz`. -/
def scenarioAPath : String :=
  "/flywheel/v0/work/rawdata/sub-01/ses-1/anat/sub-01_ses-1_T2w_axi.nii.gz"

/-- The output path inference would produce in the concrete scenario. -/
def scenarioAOut : String :=
  "/flywheel/v0/work/derivatives/sub-01/ses-1/anat/sub-01_ses-1_T2w_axi_gambas.nii.gz"

/-- Candidate environment of the concrete scenario: the options step is the
actual one from the sources, registration and inference both succeed. -/
def scenarioACand : CandidateEnv where
  optionsStep := actualOptionsStep "GAMBAS"
  registration := fun _ => Except.ok (some "registered-image")
  modelSetup := fun _ => Except.ok ()
  inference := fun _ => Except.ok (some scenarioAOut)

/-- Session environment of the concrete scenario. -/
def scenarioAEnv : SessionEnv where
  parse_input_files := Except.ok [scenarioAPath]
  cand := scenarioACand
  work_dir := "/flywheel/v0/work"

/-- The concrete scenario with a hypothetically repaired options step (as
if the `TestOptions` call accepted the `image` keyword and parsed). -/
def hypotheticalOptionsOk : CandidateEnv :=
  { scenarioACand with
    optionsStep := fun f =>
      Except.ok ⟨f, "/flywheel/v0/app/TemplateKhula.nii", scenarioAOut⟩ }

/-- A candidate environment whose registration call returns the null
sentinel for every candidate. -/
def regNoneCand : CandidateEnv :=
  { hypotheticalOptionsOk with registration := fun _ => Except.ok none }

/-- A session environment with one candidate whose registration returns the
null sentinel. -/
def regNoneEnv : SessionEnv where
  parse_input_files := Except.ok [scenarioAPath]
  cand := regNoneCand
  work_dir := "/flywheel/v0/work"

/-- A session environment whose `parse_input_files` call raises. -/
def parseFailEnv : SessionEnv where
  parse_input_files := Except.error (PyExn.other "layout traversal failed")
  cand := scenarioACand
  work_dir := "/flywheel/v0/work"

/-! ## Helper lemmas -/

theorem pyContains_spec (hay needle : String) :
    pyContains hay needle = true ↔ needle.data <:+: hay.data := by
  unfold pyContains
  rw [List.any_eq_true]
  constructor
  · rintro ⟨t, ht, hp⟩
    rw [List.mem_tails _ _] at ht
    rw [ List.isPrefixOf_iff_prefix] at hp
    exact List.infix_iff_prefix_suffix.mpr ⟨t, hp, ht⟩
  · intro h
    obtain ⟨t, hp, ht⟩ := List.infix_iff_prefix_suffix.mp h
    exact ⟨t, (List.mem_tails _ _).mpr ht, List.isPrefixOf_iff_prefix.mpr hp⟩

theorem pyContains_AXI_lower (hay : String) (h : pyContains hay "AXI" = true) :
    pyContains (pyLower hay) "axi" = true := by
  rw [pyContains_spec] at h ⊢
  have hm := List.IsInfix.map Char.toLower h
  have h1 : ("AXI".data.map Char.toLower) = "axi".data := by decide
  have h2 : (pyLower hay).data = hay.data.map Char.toLower := rfl
  rw [h2, ← h1]
  exact hm

theorem should_download_eq_and (f : FwFile) :
    should_download f =
      ((f.ftype == "source code" || f.ftype == "nifti") &&
        (pyContains f.name "T2" &&
          (pyContains (pyLower f.name) "axi" || pyContains f.name "AXI")) &&
        !(pyContains (pyLower f.name) "mapping" ||
          pyContains (pyLower f.name) "align" ||
          pyContains (pyLower f.name) "brain")) := by
  unfold should_download
  cases h1 : (f.ftype == "source code" || f.ftype == "nifti") <;>
    cases h2 : (pyContains f.name "T2" &&
        (pyContains (pyLower f.name) "axi" || pyContains f.name "AXI")) <;>
      cases h3 : (pyContains (pyLower f.name) "mapping" ||
          pyContains (pyLower f.name) "align" ||
          pyContains (pyLower f.name) "brain") <;>
        simp [h1, h2, h3]

theorem string_push_ne_self (b : String) (c : Char) : b.push c ≠ b := by
  intro h
  have hl := congrArg String.length h
  simp at hl

theorem string_push_ne_push (b : String) {c d : Char} (h : c ≠ d) :
    b.push c ≠ b.push d := by
  intro he
  have hd := congrArg String.data he
  simp only [String.data_push, List.append_cancel_left_eq, List.cons.injEq,
    and_true] at hd
  exact h hd

theorem resolveLabelLoop_taken {taken : List String} {base cand : String}
    {i : Nat} {c : Char} (fuel : Nat) (h : taken.contains cand = true)
    (hc : alc.get? i = some c) :
    resolveLabelLoop taken base (fuel + 1) cand i
      = resolveLabelLoop taken base fuel (base.push c) (i + 1) := by
  simp only [resolveLabelLoop, h, hc]
  rfl

theorem resolveLabelLoop_free {taken : List String} {base cand : String}
    {i : Nat} (fuel : Nat) (h : taken.contains cand = false) :
    resolveLabelLoop taken base (fuel + 1) cand i = some cand := by
  simp only [resolveLabelLoop, h]
  rfl

theorem resolveSessionLabel_free {taken : List String} {base : String}
    (h : taken.contains base = false) :
    resolveSessionLabel taken base = some base := by
  rw [resolveSessionLabel, show (28 : Nat) = 27 + 1 from rfl]
  exact resolveLabelLoop_free 27 h

theorem resolveSessionLabel_second {taken : List String} {base : String}
    (h0 : taken.contains base = true)
    (h1 : taken.contains (base.push 'a') = false) :
    resolveSessionLabel taken base = some (base.push 'a') := by
  rw [resolveSessionLabel, show (28 : Nat) = 27 + 1 from rfl,
    resolveLabelLoop_taken 27 h0 (show alc.get? 0 = some 'a' from rfl),
    show (27 : Nat) = 26 + 1 from rfl]
  exact resolveLabelLoop_free 26 h1

theorem resolveSessionLabel_third {taken : List String} {base : String}
    (h0 : taken.contains base = true)
    (h1 : taken.contains (base.push 'a') = true)
    (h2 : taken.contains (base.push 'b') = false) :
    resolveSessionLabel taken base = some (base.push 'b') := by
  rw [resolveSessionLabel, show (28 : Nat) = 27 + 1 from rfl,
    resolveLabelLoop_taken 27 h0 (show alc.get? 0 = some 'a' from rfl),
    show (27 : Nat) = 26 + 1 from rfl,
    resolveLabelLoop_taken 26 h1 (show alc.get? 1 = some 'b' from rfl),
    show (26 : Nat) = 25 + 1 from rfl]
  exact resolveLabelLoop_free 25 h2

/-! ## Claims -/

/-- C1: for a session whose `ProcessingResult` has at least one raw
candidate file path but an empty derivative list, the session loop of
`main` deletes every located raw file path for that session, but — because
of the `continue` at run.py line 80 — it creates no analysis record at all,
failed or otherwise: the `"failed"` status branch of lines 99 and 100 is
dead code for this case. This contradicts the claim, which expects a failed
analysis record with logs attached to be created and uploaded. -/
theorem orphan_raw_deleted_without_analysis (raw_fnames deriv_fnames logs : List String)
    (hraw : raw_fnames ≠ []) (hderiv : deriv_fnames = []) :
    main_session_step raw_fnames deriv_fnames logs
      = { deletedRaw := raw_fnames, analysis := none, skippedNoInput := false } := by
  subst hderiv
  match raw_fnames, hraw with
  | a :: as, _ => rfl

/-- Witness for C1 at a concrete orphaned session: the raw file is deleted
and no analysis record is produced. -/
theorem orphan_raw_deleted_without_analysis_witness :
    main_session_step [scenarioAPath] [] ["/flywheel/v0/work/sub-01_ses-1_log.txt"]
      = { deletedRaw := [scenarioAPath], analysis := none, skippedNoInput := false } :=
  orphan_raw_deleted_without_analysis [scenarioAPath] []
    ["/flywheel/v0/work/sub-01_ses-1_log.txt"] (by simp) rfl

/-- C2: the claim states that `fw_process_subject` returns its triple even
when `parse_input_files` raises. In fact, whenever `parse_input_files`
raises, the outer handler swallows the exception but the local variables
`raw_fnames` and `deriv_fnames` are never assigned, so `return raw_fnames,
deriv_fnames, logs` at run.py line 250 raises `UnboundLocalError`, which
propagates to the session loop of `main` and terminates the whole run. -/
theorem fw_parse_failure_propagates (env : SessionEnv) (sub ses : String)
    (e : PyExn) (h : env.parse_input_files = Except.error e) :
    (fw_process_subject env sub ses).outcome
      = Except.error (PyExn.unboundLocalError "raw_fnames") := by
  unfold fw_process_subject
  rw [h]

/-- Witness for C2: a concrete session whose candidate discovery raises. -/
theorem fw_parse_failure_propagates_witness :
    (fw_process_subject parseFailEnv "01" "1").outcome
      = Except.error (PyExn.unboundLocalError "raw_fnames") :=
  fw_parse_failure_propagates parseFailEnv "01" "1"
    (PyExn.other "layout traversal failed") rfl

/-- C3: in the concrete scenario (single candidate
`sub-01_ses-1_T2w_axi.nii.gz`, GPU available so model GAMBAS, registration
and inference both succeeding), the model selection and the output basename
computation behave as claimed, and `raw_fnames` and `logs` are the claimed
one-element lists — but `deriv_fnames` is empty, not the claimed one-element
output list: the call `TestOptions(..., image=f)` at run.py line 164 raises
`TypeError` (its `__init__` takes no `image` keyword), so every candidate is
skipped by the per-file handler. Moreover, even with the options call
repaired, the leftover `if fname:` block at run.py line 223 would append the
output path a second time, yielding a two-element derivative list. -/
theorem scenario_a_actual_outcome :
    select_model true = "GAMBAS" ∧
    get_gambas_basename ["sub-01_ses-1_T2w_axi.nii.gz"] "GAMBAS"
      = Except.ok "sub-01_ses-1_T2w_axi_gambas.nii.gz" ∧
    fw_process_subject scenarioAEnv "01" "1"
      = { outcome := Except.ok ([scenarioAPath], [],
            ["/flywheel/v0/work/sub-01_ses-1_log.txt"])
          logFileWritten := "/flywheel/v0/work/sub-01_ses-1_log.txt"
          handlerDetached := true } ∧
    processCandidate hypotheticalOptionsOk scenarioAPath = [scenarioAOut, scenarioAOut] :=
  ⟨rfl, rfl, rfl, rfl⟩

/-- C4 counterexample: the resolved session labels for raw labels
"Visit 1" and "Visit-1" under one subject are not "Visit1" and "Visit1a". -/
theorem session_label_scenario_c_counterexample :
    ¬ (downloadSubjectLabels [] ["Visit 1", "Visit-1"]
        = some ["Visit1", "Visit1a"]) := by
  decide

/-- C4 amended: `make_session_label` keeps only the first
whitespace-delimited token of the raw label, so "Visit 1" sanitizes to
"Visit" while "Visit-1" sanitizes to "Visit1"; the two do not collide and
the resolved labels are "Visit" and "Visit1" with no suffix. The general
collision rule does hold: identically-sanitizing labels under the same
parent receive single lowercase-letter suffixes in encounter order (first
seen no suffix, second 'a', third 'b'). -/
theorem session_label_scenario_c_amended :
    downloadSubjectLabels [] ["Visit 1", "Visit-1"] = some ["Visit", "Visit1"] ∧
    ∀ b : String, assignSessionLabels [] [b, b, b]
      = some [b, b.push 'a', b.push 'b'] := by
  refine ⟨by decide, fun b => ?_⟩
  have hne1 := string_push_ne_self b 'a'
  have hne2 := string_push_ne_self b 'b'
  have hne3 := string_push_ne_push b (show ('b' : Char) ≠ 'a' by decide)
  have h1 : resolveSessionLabel [] b = some b := resolveSessionLabel_free rfl
  have h2 : resolveSessionLabel [b] b = some (b.push 'a') :=
    resolveSessionLabel_second (by simp) (by simp [hne1])
  have h3 : resolveSessionLabel [b, b.push 'a'] b = some (b.push 'b') :=
    resolveSessionLabel_third (by simp) (by simp) (by simp [hne2, hne3])
  simp only [assignSessionLabels, h1, List.nil_append, h2, List.cons_append,
    List.nil_append, h3, Option.map_some]
  rfl

/-- C7: collisions are resolved by probing suffixes 'a', 'b', 'c', … in
encounter order until a free name is found; with 27 sessions sanitizing to
the same base the assignment still succeeds (base plus suffixes 'a' to 'z'),
and the 28th identically-sanitizing session exhausts the 26-letter alphabet
and fails with the error modelling the `IndexError` raised by `alc[i]` —
the failure is raised, not silently wrapped. -/
theorem session_suffix_probe_and_exhaustion :
    resolveSessionLabel ["V"] "V" = some "Va" ∧
    resolveSessionLabel ["V", "Va"] "V" = some "Vb" ∧
    resolveSessionLabel ["V", "Va", "Vb"] "V" = some "Vc" ∧
    (assignSessionLabels [] (List.replicate 27 "V")).isSome = true ∧
    assignSessionLabels [] (List.replicate 28 "V") = none := by
  refine ⟨rfl, rfl, rfl, by decide, by decide⟩

/-- C9: the `finally` block of `fw_process_subject` runs on every path: on
a session-level exception it still writes the per-session log file
`sub-01_ses-1_log.txt` under the work directory and detaches the temporary
handler — but the claim that the log path is part of the returned log list
fails on this path, because the function then raises `UnboundLocalError`
at the `return` statement instead of returning any list. -/
theorem finally_runs_on_session_exception :
    fw_process_subject parseFailEnv "01" "1"
      = { outcome := Except.error (PyExn.unboundLocalError "raw_fnames")
          logFileWritten := "/flywheel/v0/work/sub-01_ses-1_log.txt"
          handlerDetached := true } := rfl

/-- C10: for every input directory listing and every model name,
`get_gambas_basename` applied to the `*.nii.gz` glob of the directory
either fails with the file-not-found error (exactly when the glob is
empty) or succeeds with the suffix-rewritten basename of the first match;
the unsupported-file-type branch (the `ValueError`) is unreachable because
every glob result ends with `.nii.gz`. -/
theorem gambas_basename_unsupported_unreachable (entries : List String) (m : String) :
    (globNiiGz entries = [] ∧
      get_gambas_basename (globNiiGz entries) m = Except.error GbError.fileNotFound) ∨
    (∃ name rest, globNiiGz entries = name :: rest ∧
      get_gambas_basename (globNiiGz entries) m
        = Except.ok (pyReplace name ".nii.gz"
            (if m = "GAMBAS" then "_gambas.nii.gz" else "_ResCNN.nii.gz"))) := by
  cases hg : globNiiGz entries with
  | nil => exact Or.inl ⟨rfl, rfl⟩
  | cons name rest =>
    right
    refine ⟨name, rest, rfl, ?_⟩
    have hmem : name ∈ globNiiGz entries := by
      rw [hg]
      exact List.mem_cons_self name rest
    have hend : pyEndsWith name ".nii.gz" = true :=
      (List.mem_filter.mp hmem).2
    simp only [get_gambas_basename, hend]
    rfl

/-- C5: `download_file` decides to download a file exactly when its
declared content type is `source code` or `nifti`, its name contains `T2`
and (case-insensitively) `axi`, and its lowercased name contains none of
`mapping`, `align`, `brain`; the explicit `AXI` disjunct of the source is
redundant. A file failing the filter is skipped without error: the call
returns the filtered-out action together with the file name. -/
theorem download_filter_characterization (f : FwFile) :
    (should_download f = true ↔
      ((f.ftype = "source code" ∨ f.ftype = "nifti") ∧
        pyContains f.name "T2" = true ∧
        pyContains (pyLower f.name) "axi" = true ∧
        pyContains (pyLower f.name) "mapping" = false ∧
        pyContains (pyLower f.name) "align" = false ∧
        pyContains (pyLower f.name) "brain" = false)) ∧
    (should_download f = false →
      ∀ dry_run targetExists,
        download_file f dry_run targetExists = (FileAction.filteredOut, f.name)) := by
  constructor
  · rw [should_download_eq_and]
    simp only [Bool.and_eq_true, Bool.or_eq_true, beq_iff_eq, Bool.not_eq_true',
      Bool.or_eq_false_iff]
    constructor
    · rintro ⟨⟨hty, ht2, haxi⟩, ⟨hm, ha⟩, hb⟩
      refine ⟨hty, ht2, ?_, hm, ha, hb⟩
      rcases haxi with h | h
      · exact h
      · exact pyContains_AXI_lower f.name h
    · rintro ⟨hty, ht2, haxi, hm, ha, hb⟩
      exact ⟨⟨hty, ht2, Or.inl haxi⟩, ⟨hm, ha⟩, hb⟩
  · intro h dry_run targetExists
    unfold download_file
    rw [h]
    rfl

/-- Witness for C5: a sagittal file fails the filter and is returned as
skipped without error. -/
theorem download_filter_characterization_witness :
    download_file ⟨"sub-01_ses-1_T2w_sag.nii.gz", "nifti"⟩ false false
      = (FileAction.filteredOut, "sub-01_ses-1_T2w_sag.nii.gz") :=
  (download_filter_characterization ⟨"sub-01_ses-1_T2w_sag.nii.gz", "nifti"⟩).2
    (by decide) false false

/-- C6: for a file that passes the inclusion filter (and a non-dry run),
the download operation is invoked exactly when the target path does not
already exist; an already-materialized target path is never re-fetched. -/
theorem download_skip_existing (f : FwFile) (targetExists : Bool)
    (h : should_download f = true) :
    ((download_file f false targetExists).1 = FileAction.downloaded
      ↔ targetExists = false) := by
  unfold download_file
  rw [h]
  cases targetExists <;> simp

/-- Witness for C6: the concrete axial file is downloaded when absent. -/
theorem download_skip_existing_witness :
    (download_file ⟨"sub-01_ses-1_T2w_axi.nii.gz", "nifti"⟩ false false).1
      = FileAction.downloaded :=
  (download_skip_existing ⟨"sub-01_ses-1_T2w_axi.nii.gz", "nifti"⟩ false
    (by decide)).mpr rfl

/-- C8: a candidate whose registration call returns the null sentinel
contributes nothing to `deriv_fnames` and raises nothing, whatever the
options step did (the skip at run.py lines 170 to 172 when the options
step succeeds, the per-file handler when it raises); and whenever the
candidate list was produced at all, the unit processor returns its triple
— no exception propagates — with every candidate path in `raw_fnames`. -/
theorem registration_none_skips_candidate :
    (∀ (c : CandidateEnv) (f : String), c.registration f = Except.ok none →
      processCandidate c f = []) ∧
    (∀ (env : SessionEnv) (sub ses : String) (files : List String) (f : String),
      env.parse_input_files = Except.ok files → f ∈ files →
      ∃ raw_fnames deriv_fnames logs,
        (fw_process_subject env sub ses).outcome
          = Except.ok (raw_fnames, deriv_fnames, logs) ∧
        raw_fnames = files ∧ f ∈ raw_fnames) := by
  constructor
  · intro c f h
    unfold processCandidate
    rw [h]
    cases c.optionsStep f <;> rfl
  · intro env sub ses files f hp hf
    have hout : (fw_process_subject env sub ses).outcome
        = Except.ok (files, (files.map (processCandidate env.cand)).flatten,
            [log_filename env.work_dir sub ses]) := by
      unfold fw_process_subject
      rw [hp]
    exact ⟨files, _, _, hout, rfl, hf⟩

/-- Witness for C8: one candidate with a null registration result — its
contribution is empty and the session call still returns, with the
candidate path among the raw files. -/
theorem registration_none_skips_candidate_witness :
    processCandidate regNoneCand scenarioAPath = [] ∧
    ∃ raw_fnames deriv_fnames logs,
      (fw_process_subject regNoneEnv "01" "1").outcome
        = Except.ok (raw_fnames, deriv_fnames, logs) ∧
      raw_fnames = [scenarioAPath] ∧ scenarioAPath ∈ raw_fnames :=
  ⟨registration_none_skips_candidate.1 regNoneCand scenarioAPath rfl,
    registration_none_skips_candidate.2 regNoneEnv "01" "1" [scenarioAPath]
      scenarioAPath rfl (List.mem_cons_self _ _)⟩

end Gambas
